import Mathlib

/-!
# Shallow embedding of `deep_disk_check.py`

The script checks external disks on a Mac: it enumerates external physical
disks (excluding system disks), determines the filesystem type of each,
unmounts it, verifies/repairs it, and remounts it, logging to two channels
(an informational `spec_logger` that also receives errors, and an
errors-only `error_logger`).  A global list `UNMOUNTED_DISKS` records the
disks this run unmounted, and `cleanup` (registered with `atexit` and as the
SIGINT/SIGTERM handler, guarded by the global flag `CLEANUP_DONE`) remounts
whatever is left in that list and appends a summary block to the error log
file.

All external `diskutil` invocations are fallible subprocess calls; the
embedding models the outcome of each call as an oracle value per disk
(`DiskEnv`, `SysCheck`) and records every state-mutating `diskutil`
invocation (`unmountDisk`, `mountDisk`, `verifyVolume`, `repairVolume`),
together with its outcome, in an event trace.  Parsing of `diskutil` text
output (the `Type (Bundle)` line, the `Mounted:` line, the `Apple_APFS` /
`Apple_HFS` rows) is modelled at the level of the parsed values the source
extracts from that text.
-/

namespace DeepDiskCheck

/-- Run mode.  The source stores it as the strings `"normal"` / `"dry"`
(resolved before disk processing from `--dry-run` / `--non-interactive` /
the interactive menu); only these two values reach the disk-processing
code. -/
inductive Mode where
  | normal
  | dry
deriving DecidableEq, Repr

/-- Severity of a log record. -/
inductive Sev where
  | info
  | error
deriving DecidableEq, Repr

/-- A state-mutating `diskutil` invocation, with the outcome of the
subprocess call (`true` = exit status 0, `false` = `CalledProcessError`).
Query calls (`diskutil info`, `diskutil list`) are not state-mutating and
are not traced. -/
inductive Ev where
  | unmountCall (disk : String) (ok : Bool)
  | mountCall (disk : String) (ok : Bool)
  | verifyCall (disk : String) (ok : Bool)
  | repairCall (disk : String) (ok : Bool)
deriving DecidableEq, Repr

/-- The program state: the two global variables of the script, the two log
channels, the summary blocks appended to the error log file by
`append_summary`, and the trace of state-mutating `diskutil` calls. -/
structure St where
  /-- Global `UNMOUNTED_DISKS` (a Python list, appended/`.remove`d). -/
  UNMOUNTED_DISKS : List String := []
  /-- Global `CLEANUP_DONE`. -/
  CLEANUP_DONE : Bool := false
  /-- Records written through `spec_logger` (info and error lines). -/
  spec_log : List (Sev × String) := []
  /-- Records written through `error_logger` (errors only).  Each physical
  line in the error log file carries the levelname `ERROR`, so the file
  content contains the substring `"ERROR"` iff this channel is nonempty. -/
  error_log : List String := []
  /-- Summary recommendation blocks written directly (via `f.write`) to the
  error log file by `append_summary`. -/
  summary_blocks : List String := []
  /-- Trace of state-mutating `diskutil` invocations with outcomes. -/
  calls : List Ev := []
deriving DecidableEq, Repr

/-- `log_info` (source l.74-78): appends an info record to the spec log. -/
def log_info (message : String) (s : St) : St :=
  { s with spec_log := s.spec_log ++ [(Sev.info, message)] }

/-- `log_error` (source l.80-85): appends an error record to both the error
log and the spec log. -/
def log_error (message : String) (s : St) : St :=
  { s with spec_log := s.spec_log ++ [(Sev.error, message)],
           error_log := s.error_log ++ [message] }

/-- Records one state-mutating `diskutil` invocation in the trace. -/
def recordCall (e : Ev) (s : St) : St :=
  { s with calls := s.calls ++ [e] }

/-- `SUPPORTED_FILESYSTEMS` (source l.29-33). -/
def SUPPORTED_FILESYSTEMS : List String :=
  ["apfs", "hfs", "msdos", "exfat", "udf", "ufs", "ntfs",
   "fat32", "ext4", "btrfs", "xfs", "iso9660", "smbfs",
   "davfs2", "fuseblk", "fuse"]

/-- Oracle for the per-disk outcomes of the external `diskutil` calls made
while processing one disk. -/
structure DiskEnv where
  /-- Outcome of the `diskutil info` call in `get_filesystem`: `none` = the
  subprocess failed (`CalledProcessError`); `some none` = it succeeded but
  printed no `Type (Bundle)` line; `some (some t)` = it printed
  `Type (Bundle): T` where `t` is `T` stripped and lowercased. -/
  fsInfo : Option (Option String)
  /-- Whether the own `diskutil info` call of `unmount_disk` succeeds. -/
  infoOk : Bool
  /-- Whether that info output contains a `Mounted:` line with `Yes`. -/
  mounted : Bool
  /-- Outcome of `diskutil unmountDisk`, when invoked. -/
  unmountOk : Bool
  /-- Outcome of `diskutil verifyVolume`, when invoked. -/
  verifyOk : Bool
  /-- Outcome of `diskutil repairVolume`, when invoked. -/
  repairOk : Bool
  /-- Outcome of `diskutil mountDisk` in the main loop, when invoked. -/
  remountOk : Bool
deriving DecidableEq, Repr

/-- Oracle for one `is_system_disk` query: whether its `diskutil list`
subprocess succeeds, and the first tokens of the output lines containing
`Apple_APFS` or `Apple_HFS`. -/
structure SysCheck where
  listOk : Bool
  systemPartitions : List String
deriving DecidableEq, Repr

/-- `get_filesystem` (source l.119-134): returns the detected filesystem
type, or `"unknown"` when the `Type (Bundle)` line is absent or the
`diskutil info` subprocess fails (both paths log an error). -/
def get_filesystem (disk : String) (env : DiskEnv) (s : St) : String × St :=
  match env.fsInfo with
  | some (some t) =>
      (t, log_info ("Detected filesystem type for " ++ disk ++ ": " ++ t) s)
  | some none =>
      ("unknown", log_error ("Filesystem type not found for " ++ disk ++ ".") s)
  | none =>
      ("unknown", log_error ("Failed to get filesystem info for " ++ disk ++ ".") s)

/-- The error text `unmount_disk` logs when either of its subprocesses
raises. -/
def unmountFailMsg (disk : String) : String :=
  "Unable to unmount " ++ disk ++ ". It may be in use. Skipping verification."

/-- `unmount_disk` (source l.170-195): queries mount state via
`diskutil info`; if mounted, either logs the dry-run line, or invokes
`diskutil unmountDisk` and on success appends the disk to
`UNMOUNTED_DISKS`.  Returns `False` when either subprocess raises
(both exceptions reach the same `except` clause and log the same error). -/
def unmount_disk (disk : String) (mode : Mode) (env : DiskEnv) (s : St) :
    Bool × St :=
  if env.infoOk then
    if env.mounted then
      if mode = Mode.dry then
        (true, log_info ("Dry run: Would attempt to unmount " ++ disk ++ ".") s)
      else
        let s := log_info (disk ++ " is mounted. Attempting to unmount...") s
        let s := recordCall (Ev.unmountCall disk env.unmountOk) s
        if env.unmountOk then
          let s := log_info (disk ++ " unmounted successfully.") s
          (true, { s with UNMOUNTED_DISKS := s.UNMOUNTED_DISKS ++ [disk] })
        else
          (false, log_error (unmountFailMsg disk) s)
    else
      (true, log_info (disk ++ " is not mounted. No need to unmount.") s)
  else
    (false, log_error (unmountFailMsg disk) s)

/-- `mount_disk` (source l.197-210): in dry mode only logs; otherwise
invokes `diskutil mountDisk` (outcome `ok`) and on success removes the
first occurrence of the disk from `UNMOUNTED_DISKS` (`list.remove`); on
failure logs an error and leaves the list unchanged. -/
def mount_disk (disk : String) (mode : Mode) (ok : Bool) (s : St) : St :=
  if mode = Mode.dry then
    log_info ("Dry run: Would attempt to remount " ++ disk ++ ".") s
  else
    let s := log_info ("Attempting to remount " ++ disk ++ "...") s
    let s := recordCall (Ev.mountCall disk ok) s
    if ok then
      let s := log_info (disk ++ " remounted successfully.") s
      { s with UNMOUNTED_DISKS := s.UNMOUNTED_DISKS.erase disk }
    else
      log_error ("Unable to remount " ++ disk ++
        ". You may need to remount it manually.") s

/-- The error text `verify_filesystem` logs for an unsupported type. -/
def unsupportedMsg (fs_type disk : String) : String :=
  "Unsupported or unknown filesystem type " ++ fs_type ++ " for " ++ disk ++
    ". Skipping verification."

/-- The manual-intervention error text logged when repair fails. -/
def repairFailedMsg (disk : String) : String :=
  "Error: " ++ disk ++ " repair failed. Manual intervention may be required."

/-- `verify_filesystem` (source l.212-235): rejects types outside
`SUPPORTED_FILESYSTEMS` (error, no call); in dry mode only logs; otherwise
invokes `diskutil verifyVolume`, and on failure escalates once to
`diskutil repairVolume`, logging the manual-intervention error if the
repair also fails. -/
def verify_filesystem (disk fs_type : String) (mode : Mode) (env : DiskEnv)
    (s : St) : St :=
  if fs_type ∉ SUPPORTED_FILESYSTEMS then
    log_error (unsupportedMsg fs_type disk) s
  else if mode = Mode.dry then
    log_info ("Dry run: Would verify " ++ disk ++ " with filesystem type " ++
      fs_type ++ ".") s
  else
    let s := log_info ("Verifying " ++ disk ++ " with filesystem type " ++
      fs_type ++ "...") s
    let s := recordCall (Ev.verifyCall disk env.verifyOk) s
    if env.verifyOk then
      log_info (disk ++ " verification succeeded.") s
    else
      let s := log_error (disk ++ " verification found issues.") s
      let s := log_info ("Attempting to repair " ++ disk ++ "...") s
      let s := recordCall (Ev.repairCall disk env.repairOk) s
      if env.repairOk then
        log_info (disk ++ " repair succeeded.") s
      else
        log_error (repairFailedMsg disk) s

/-- The summary block written when the error log contains `"ERROR"`. -/
def manualReviewMsg : String :=
  "Some disks encountered issues that require manual intervention. " ++
    "Please review the above errors and take appropriate actions."

/-- The summary block written otherwise. -/
def allPassedMsg : String :=
  "All disk checks completed without errors."

/-- `append_summary` (source l.237-254): reads the error log file back and
tests `"ERROR" in error_content`.  Every record in the error log file is
formatted with the levelname `ERROR`, and neither the summary header nor
either recommendation text contains that substring, so the test holds iff
the errors-only channel is nonempty.  One recommendation block is appended
to the error log file and a matching info line goes to the spec log. -/
def append_summary (s : St) : St :=
  if s.error_log.isEmpty then
    let s := { s with summary_blocks := s.summary_blocks ++ [allPassedMsg] }
    log_info ("Summary: No errors detected. " ++
      "All disk checks passed successfully.") s
  else
    let s := { s with summary_blocks := s.summary_blocks ++ [manualReviewMsg] }
    log_info ("Summary: Some errors were encountered during the disk check. " ++
      "Please review the error logs for details.") s

/-- `cleanup` (source l.256-267), minus its trailing `sys.exit(1)` (the
exit is modelled at the call sites: raised from the signal handler it
unwinds `main` with status 1; raised inside the `atexit` callback it is
ignored by CPython 3 and does not change the exit status).  When
`CLEANUP_DONE` is still false: remounts every disk in a snapshot
(`UNMOUNTED_DISKS.copy()`) of the list — `cenv d` is the outcome of the
`diskutil mountDisk` call for `d` at cleanup time — appends the summary,
and sets the flag.  Otherwise does nothing. -/
def cleanup (cenv : String → Bool) (s : St) : St :=
  if s.CLEANUP_DONE = false then
    let s := log_info "Script interrupted or exiting. Performing cleanup." s
    let s := s.UNMOUNTED_DISKS.foldl
      (fun st d => mount_disk d Mode.normal (cenv d) st) s
    let s := append_summary s
    { s with CLEANUP_DONE := true }
  else
    s

/-- The error text `is_system_disk` logs when its subprocess raises. -/
def sysCheckFailMsg (disk : String) : String :=
  "Failed to determine if " ++ disk ++ " is a system disk."

/-- `is_system_disk` (source l.154-168): runs `diskutil list`; on success
returns whether the first token of some `Apple_APFS`/`Apple_HFS` partition row
starts with the disk identifier (logging an info line when it does); on
subprocess failure logs an error and returns `False`. -/
def is_system_disk (disk : String) (c : SysCheck) (s : St) : Bool × St :=
  if c.listOk then
    if c.systemPartitions.any (fun p => disk.isPrefixOf p) then
      (true, log_info (disk ++ " is identified as a system disk.") s)
    else
      (false, s)
  else
    (false, log_error (sysCheckFailMsg disk) s)

/-- The error text `get_external_disks` logs when enumeration fails. -/
def enumFailMsg : String := "Failed to list external physical disks."

/-- `get_external_disks` (source l.136-152): on enumeration-command failure
(`enum = none`) logs an error and returns the empty list; otherwise keeps,
in order, every candidate (the first token of each `/dev/disk...` output
line) for which `is_system_disk` returns `False`. -/
def get_external_disks (enum : Option (List String))
    (sysc : String → SysCheck) (s : St) : List String × St :=
  match enum with
  | none =>
      ([], log_error enumFailMsg s)
  | some cands =>
      let r := cands.foldl
        (fun (acc : List String × St) d =>
          let p := is_system_disk d (sysc d) acc.2
          (if p.1 then acc.1 else acc.1 ++ [d], p.2))
        ([], s)
      (r.1, log_info "Found external disks." r.2)

/-- The body of the per-disk loop in `main` (source l.342-362): classify, skip
on `"unknown"`, unmount (skip on failure), verify/repair, and remount when
this run unmounted the disk (`if disk in UNMOUNTED_DISKS`). -/
def process_disk (mode : Mode) (env : DiskEnv) (disk : String) (s : St) : St :=
  let s := log_info "----------------------------------------" s
  let s := log_info ("Checking " ++ disk ++ "...") s
  let r := get_filesystem disk env s
  let fs_type := r.1
  let s := r.2
  if fs_type = "unknown" then
    log_error ("Unable to determine filesystem type for " ++ disk ++
      ". Skipping verification.") s
  else
    let u := unmount_disk disk mode env s
    if u.1 = false then
      u.2
    else
      let s := verify_filesystem disk fs_type mode env u.2
      let s := if disk ∈ s.UNMOUNTED_DISKS then
                 mount_disk disk mode env.remountOk s
               else s
      log_info ("Done with " ++ disk ++ ".") s

/-- The loop of `main` over the enumerated disks, the oracle of each disk supplied by
`denv`. -/
def run_loop (mode : Mode) (denv : String → DiskEnv) (disks : List String)
    (s : St) : St :=
  disks.foldl (fun st d => process_disk mode (denv d) d st) s

/-- All external inputs of one run: the resolved run mode, the prerequisite
check outcomes, the enumeration result (`none` = the `diskutil list
external physical` subprocess failed), and the per-disk oracles (`cenv d`
is the outcome of the remount `cleanup` would issue for `d`). -/
structure RunInput where
  mode : Mode
  commandsOk : Bool
  isRoot : Bool
  enum : Option (List String)
  sysc : String → SysCheck
  denv : String → DiskEnv
  cenv : String → Bool

/-- The initial state: both globals at their module-level values, empty
logs, no calls. -/
def initSt : St := {}

/-- Process exit with the given status code: the `atexit` machinery invokes
`cleanup` during interpreter shutdown.  The `SystemExit(1)` that `cleanup`
then raises inside the `atexit` callback is ignored by CPython 3
("Exception ignored in atexit callback") and does not change the exit
status. -/
def atexit_exit (code : Nat) (cenv : String → Bool) (s : St) : Nat × St :=
  (code, cleanup cenv s)

/-- The info text `main` logs when the enumeration comes back empty. -/
def noDisksMsg : String := "No external disks found to check."

/-- `main` (source l.304-372) run to completion with no signal delivered:
register handlers; check prerequisites (`sys.exit` with a string message =
status 1 on failure, after which `atexit` still runs `cleanup`); enumerate;
either report "no disks" or run the per-disk loop; append the summary; set
`CLEANUP_DONE`; `sys.exit(0)` (after which `atexit` runs `cleanup` as a
no-op).  The prerequisite failure messages are representative single
records (the source logs one error per missing command plus two fixed
lines, or one error for the root check); only their presence on the error
channel matters downstream. -/
def main_run (inp : RunInput) : Nat × St :=
  if inp.commandsOk = false then
    let s := log_error "One or more required commands are missing." initSt
    atexit_exit 1 inp.cenv s
  else if inp.isRoot = false then
    let s := log_error "This script must be run as root. Please use sudo." initSt
    atexit_exit 1 inp.cenv s
  else
    let s := log_info "Starting disk checks." initSt
    let g := get_external_disks inp.enum inp.sysc s
    let disks := g.1
    let s := g.2
    let s := if disks.isEmpty then
               log_info noDisksMsg s
             else
               run_loop inp.mode inp.denv disks s
    let s := log_info "----------------------------------------" s
    let s := log_info "Disk Check Completed." s
    let s := append_summary s
    let s := { s with CLEANUP_DONE := true }
    atexit_exit 0 inp.cenv s

/-- `main` interrupted by SIGINT/SIGTERM at a disk boundary after `k` disks
have been fully processed (prerequisites having passed).  The handler calls
`cleanup`, whose `sys.exit(1)` propagates out of the handler as a
`SystemExit` unwinding `main` with status 1; `atexit` then runs `cleanup`
again (a no-op, its own `SystemExit(1)` ignored). -/
def main_interrupted (inp : RunInput) (k : Nat) : Nat × St :=
  let s := log_info "Starting disk checks." initSt
  let g := get_external_disks inp.enum inp.sysc s
  let s := run_loop inp.mode inp.denv (g.1.take k) g.2
  let s := cleanup inp.cenv s
  atexit_exit 1 inp.cenv s

/-- One trace step for `owesRemount`: a successful unmount of the disk
makes the run owe it a remount, a successful mount discharges that debt,
every other event leaves it unchanged. -/
def owesStep (disk : String) (b : Bool) (e : Ev) : Bool :=
  match e with
  | Ev.unmountCall d true => if d = disk then true else b
  | Ev.mountCall d true => if d = disk then false else b
  | _ => b

/-- Whether, after the given trace of `diskutil` calls, the run has
successfully unmounted `disk` without a subsequent successful remount. -/
def owesRemount (disk : String) (evs : List Ev) : Bool :=
  evs.foldl (owesStep disk) false

/-- The Unmounted-Set invariant: a disk is in `UNMOUNTED_DISKS` iff this
run successfully unmounted it and has not since successfully remounted it;
the list also never holds duplicates. -/
def SetInv (s : St) : Prop :=
  (∀ d, d ∈ s.UNMOUNTED_DISKS ↔ owesRemount d s.calls = true) ∧
    s.UNMOUNTED_DISKS.Nodup

/-- A disk oracle on which every external call succeeds, reporting a
mounted APFS disk. -/
def envBasic : DiskEnv :=
  { fsInfo := some (some "apfs"), infoOk := true, mounted := true,
    unmountOk := true, verifyOk := true, repairOk := true, remountOk := true }

/-- Like `envBasic` but the in-loop remount fails. -/
def envRemountFail : DiskEnv := { envBasic with remountOk := false }

/-- Like `envBasic` but the filesystem type reads back as `zfs`, a type
outside `SUPPORTED_FILESYSTEMS`. -/
def envZfs : DiskEnv := { envBasic with fsInfo := some (some "zfs") }

/-- Like `envBasic` but the unmount attempt fails. -/
def envUnmountFail : DiskEnv := { envBasic with unmountOk := false }

/-- Like `envBasic` but verification and repair both fail. -/
def envRepairFail : DiskEnv :=
  { envBasic with verifyOk := false, repairOk := false }

/-- A system-disk check that succeeds and matches nothing. -/
def sysOk : SysCheck := { listOk := true, systemPartitions := [] }

/-- A run input with passing prerequisites, the given mode, the given
enumerated candidates, and the same oracle for every disk. -/
def mkInput (mode : Mode) (env : DiskEnv) (cands : List String) : RunInput :=
  { mode := mode, commandsOk := true, isRoot := true, enum := some cands,
    sysc := fun _ => sysOk, denv := fun _ => env, cenv := fun _ => true }

/-- A normal run over one disk whose in-loop remount fails. -/
def inpRemountFail : RunInput := mkInput Mode.normal envRemountFail ["disk9"]

/-- A trivial normal run with no candidate disks. -/
def inpEmpty : RunInput := mkInput Mode.normal envBasic []

/-- Like `inpEmpty` but the root check fails. -/
def inpNoRoot : RunInput := { inpEmpty with isRoot := false }

/-- A dry run over one healthy disk. -/
def inpDry : RunInput := mkInput Mode.dry envBasic ["disk1"]

/-- A normal run whose disk enumeration command fails. -/
def inpEnumFail : RunInput := { inpEmpty with enum := none }

/-- A state in which this run still owes `disk9` a remount, with an error
already on the error channel and the done-flag still unset. -/
def s9 : St :=
  { UNMOUNTED_DISKS := ["disk9"],
    calls := [Ev.unmountCall "disk9" true],
    error_log := ["some error"] }

/-! ## Component lemmas for the state helpers -/

@[simp] theorem log_info_disks (m : String) (s : St) :
    (log_info m s).UNMOUNTED_DISKS = s.UNMOUNTED_DISKS := rfl

@[simp] theorem log_info_done (m : String) (s : St) :
    (log_info m s).CLEANUP_DONE = s.CLEANUP_DONE := rfl

@[simp] theorem log_info_err (m : String) (s : St) :
    (log_info m s).error_log = s.error_log := rfl

@[simp] theorem log_info_blocks (m : String) (s : St) :
    (log_info m s).summary_blocks = s.summary_blocks := rfl

@[simp] theorem log_info_calls (m : String) (s : St) :
    (log_info m s).calls = s.calls := rfl

@[simp] theorem log_error_disks (m : String) (s : St) :
    (log_error m s).UNMOUNTED_DISKS = s.UNMOUNTED_DISKS := rfl

@[simp] theorem log_error_done (m : String) (s : St) :
    (log_error m s).CLEANUP_DONE = s.CLEANUP_DONE := rfl

@[simp] theorem log_error_err (m : String) (s : St) :
    (log_error m s).error_log = s.error_log ++ [m] := rfl

@[simp] theorem log_error_blocks (m : String) (s : St) :
    (log_error m s).summary_blocks = s.summary_blocks := rfl

@[simp] theorem log_error_calls (m : String) (s : St) :
    (log_error m s).calls = s.calls := rfl

@[simp] theorem recordCall_disks (e : Ev) (s : St) :
    (recordCall e s).UNMOUNTED_DISKS = s.UNMOUNTED_DISKS := rfl

@[simp] theorem recordCall_done (e : Ev) (s : St) :
    (recordCall e s).CLEANUP_DONE = s.CLEANUP_DONE := rfl

@[simp] theorem recordCall_err (e : Ev) (s : St) :
    (recordCall e s).error_log = s.error_log := rfl

@[simp] theorem recordCall_blocks (e : Ev) (s : St) :
    (recordCall e s).summary_blocks = s.summary_blocks := rfl

@[simp] theorem recordCall_calls (e : Ev) (s : St) :
    (recordCall e s).calls = s.calls ++ [e] := rfl

/-! ## Lemmas about `owesRemount` -/

@[simp] theorem owesRemount_nil (d : String) : owesRemount d [] = false := rfl

@[simp] theorem owesRemount_append (d : String) (l1 l2 : List Ev) :
    owesRemount d (l1 ++ l2) = l2.foldl (owesStep d) (owesRemount d l1) := by
  simp [owesRemount, List.foldl_append]

theorem owesRemount_snoc (d : String) (l : List Ev) (e : Ev) :
    owesRemount d (l ++ [e]) = owesStep d (owesRemount d l) e := by
  simp [owesRemount, List.foldl_append]

@[simp] theorem owesStep_verify (d x : String) (b o : Bool) :
    owesStep d b (Ev.verifyCall x o) = b := rfl

@[simp] theorem owesStep_repair (d x : String) (b o : Bool) :
    owesStep d b (Ev.repairCall x o) = b := rfl

@[simp] theorem owesStep_unmount_true (d x : String) (b : Bool) :
    owesStep d b (Ev.unmountCall x true) = if x = d then true else b := rfl

@[simp] theorem owesStep_unmount_false (d x : String) (b : Bool) :
    owesStep d b (Ev.unmountCall x false) = b := rfl

@[simp] theorem owesStep_mount_true (d x : String) (b : Bool) :
    owesStep d b (Ev.mountCall x true) = if x = d then false else b := rfl

@[simp] theorem owesStep_mount_false (d x : String) (b : Bool) :
    owesStep d b (Ev.mountCall x false) = b := rfl

/-! ## Frame equations for the translated operations -/

theorem mount_calls_dry (disk : String) (ok : Bool) (s : St) :
    (mount_disk disk Mode.dry ok s).calls = s.calls := by
  simp [mount_disk]

theorem mount_disks_dry (disk : String) (ok : Bool) (s : St) :
    (mount_disk disk Mode.dry ok s).UNMOUNTED_DISKS = s.UNMOUNTED_DISKS := by
  simp [mount_disk]

theorem mount_calls_normal (disk : String) (ok : Bool) (s : St) :
    (mount_disk disk Mode.normal ok s).calls =
      s.calls ++ [Ev.mountCall disk ok] := by
  cases ok <;> simp [mount_disk]

theorem mount_disks_normal_true (disk : String) (s : St) :
    (mount_disk disk Mode.normal true s).UNMOUNTED_DISKS =
      s.UNMOUNTED_DISKS.erase disk := by
  simp [mount_disk]

theorem mount_disks_normal_false (disk : String) (s : St) :
    (mount_disk disk Mode.normal false s).UNMOUNTED_DISKS =
      s.UNMOUNTED_DISKS := by
  simp [mount_disk]

theorem mount_done (disk : String) (mode : Mode) (ok : Bool) (s : St) :
    (mount_disk disk mode ok s).CLEANUP_DONE = s.CLEANUP_DONE := by
  cases mode <;> cases ok <;> simp [mount_disk]

theorem mount_blocks (disk : String) (mode : Mode) (ok : Bool) (s : St) :
    (mount_disk disk mode ok s).summary_blocks = s.summary_blocks := by
  cases mode <;> cases ok <;> simp [mount_disk]

/-! ## Preservation of the Unmounted-Set invariant -/

theorem setInv_log_info (m : String) (s : St) (h : SetInv s) :
    SetInv (log_info m s) := h

theorem setInv_log_error (m : String) (s : St) (h : SetInv s) :
    SetInv (log_error m s) := h

theorem setInv_mount (disk : String) (mode : Mode) (ok : Bool) (s : St)
    (h : SetInv s) : SetInv (mount_disk disk mode ok s) := by
  obtain ⟨h1, h2⟩ := h
  cases mode with
  | dry =>
      exact ⟨fun d => by rw [mount_disks_dry, mount_calls_dry]; exact h1 d,
        by rw [mount_disks_dry]; exact h2⟩
  | normal =>
      cases ok with
      | false =>
          refine ⟨fun d => ?_, by rw [mount_disks_normal_false]; exact h2⟩
          rw [mount_disks_normal_false, mount_calls_normal, owesRemount_snoc,
            owesStep_mount_false]
          exact h1 d
      | true =>
          refine ⟨fun d => ?_, by rw [mount_disks_normal_true]; exact h2.erase disk⟩
          rw [mount_disks_normal_true, mount_calls_normal, owesRemount_snoc,
            owesStep_mount_true]
          by_cases hd : disk = d
          · subst hd
            simp [h2.not_mem_erase]
          · rw [List.mem_erase_of_ne (Ne.symm hd), if_neg hd]
            exact h1 d

theorem setInv_unmount (disk : String) (mode : Mode) (env : DiskEnv) (s : St)
    (h : SetInv s) (hfresh : disk ∉ s.UNMOUNTED_DISKS) :
    SetInv (unmount_disk disk mode env s).2 := by
  obtain ⟨h1, h2⟩ := h
  rcases env with ⟨fsi, io, mo, uo, vo, ro, rm⟩
  cases io <;> cases mo <;> cases mode <;> cases uo <;>
    simp only [unmount_disk, Bool.false_eq_true, if_false, if_true,
      reduceCtorEq, decide_True, decide_False, ite_true, ite_false] <;>
    first
      | exact ⟨h1, h2⟩
      | exact ⟨fun d => by simpa using h1 d, by simpa using h2⟩
      | skip
  all_goals refine ⟨fun d => ?_, ?_⟩
  · by_cases hd : disk = d
    · subst hd
      simp
    · simp only [owesRemount_snoc, owesStep_unmount_true, log_info_disks,
        log_info_calls, recordCall_disks, recordCall_calls,
        List.mem_append, List.mem_singleton, if_neg hd]
      rw [or_iff_left (fun hh => hd hh.symm)]
      exact h1 d
  · simp only [log_info_disks, recordCall_disks]
    exact h2.append (List.nodup_singleton disk)
      (by simpa [List.disjoint_singleton] using hfresh)

theorem verify_disks (disk fs_type : String) (mode : Mode) (env : DiskEnv)
    (s : St) : (verify_filesystem disk fs_type mode env s).UNMOUNTED_DISKS =
      s.UNMOUNTED_DISKS := by
  rcases env with ⟨fsi, io, mo, uo, vo, ro, rm⟩
  by_cases hs : fs_type ∈ SUPPORTED_FILESYSTEMS <;>
    cases mode <;> cases vo <;> cases ro <;>
    simp [verify_filesystem, hs]

theorem verify_owes (disk fs_type : String) (mode : Mode) (env : DiskEnv)
    (s : St) (e : String) :
    owesRemount e (verify_filesystem disk fs_type mode env s).calls =
      owesRemount e s.calls := by
  rcases env with ⟨fsi, io, mo, uo, vo, ro, rm⟩
  by_cases hs : fs_type ∈ SUPPORTED_FILESYSTEMS <;>
    cases mode <;> cases vo <;> cases ro <;>
    simp [verify_filesystem, hs]

theorem verify_done (disk fs_type : String) (mode : Mode) (env : DiskEnv)
    (s : St) : (verify_filesystem disk fs_type mode env s).CLEANUP_DONE =
      s.CLEANUP_DONE := by
  rcases env with ⟨fsi, io, mo, uo, vo, ro, rm⟩
  by_cases hs : fs_type ∈ SUPPORTED_FILESYSTEMS <;>
    cases mode <;> cases vo <;> cases ro <;>
    simp [verify_filesystem, hs]

theorem verify_blocks (disk fs_type : String) (mode : Mode) (env : DiskEnv)
    (s : St) : (verify_filesystem disk fs_type mode env s).summary_blocks =
      s.summary_blocks := by
  rcases env with ⟨fsi, io, mo, uo, vo, ro, rm⟩
  by_cases hs : fs_type ∈ SUPPORTED_FILESYSTEMS <;>
    cases mode <;> cases vo <;> cases ro <;>
    simp [verify_filesystem, hs]

theorem getfs_disks (disk : String) (env : DiskEnv) (s : St) :
    (get_filesystem disk env s).2.UNMOUNTED_DISKS = s.UNMOUNTED_DISKS := by
  rcases hfsi : env.fsInfo with _ | ⟨_ | t⟩ <;> simp [get_filesystem, hfsi]

theorem getfs_calls (disk : String) (env : DiskEnv) (s : St) :
    (get_filesystem disk env s).2.calls = s.calls := by
  rcases hfsi : env.fsInfo with _ | ⟨_ | t⟩ <;> simp [get_filesystem, hfsi]

theorem getfs_done (disk : String) (env : DiskEnv) (s : St) :
    (get_filesystem disk env s).2.CLEANUP_DONE = s.CLEANUP_DONE := by
  rcases hfsi : env.fsInfo with _ | ⟨_ | t⟩ <;> simp [get_filesystem, hfsi]

theorem getfs_blocks (disk : String) (env : DiskEnv) (s : St) :
    (get_filesystem disk env s).2.summary_blocks = s.summary_blocks := by
  rcases hfsi : env.fsInfo with _ | ⟨_ | t⟩ <;> simp [get_filesystem, hfsi]

theorem append_summary_disks (s : St) :
    (append_summary s).UNMOUNTED_DISKS = s.UNMOUNTED_DISKS := by
  by_cases h : s.error_log.isEmpty <;> simp [append_summary, h]

theorem append_summary_calls (s : St) :
    (append_summary s).calls = s.calls := by
  by_cases h : s.error_log.isEmpty <;> simp [append_summary, h]

theorem append_summary_done (s : St) :
    (append_summary s).CLEANUP_DONE = s.CLEANUP_DONE := by
  by_cases h : s.error_log.isEmpty <;> simp [append_summary, h]

theorem append_summary_err (s : St) :
    (append_summary s).error_log = s.error_log := by
  by_cases h : s.error_log.isEmpty <;> simp [append_summary, h]

theorem append_summary_blocks (s : St) :
    (append_summary s).summary_blocks = s.summary_blocks ++
      [if s.error_log.isEmpty then allPassedMsg else manualReviewMsg] := by
  by_cases h : s.error_log.isEmpty <;> simp [append_summary, h]

theorem cleanup_done_id (cenv : String → Bool) (s : St)
    (h : s.CLEANUP_DONE = true) : cleanup cenv s = s := by
  unfold cleanup
  simp [h]

theorem setInv_verify (disk fs_type : String) (mode : Mode) (env : DiskEnv)
    (s : St) (h : SetInv s) : SetInv (verify_filesystem disk fs_type mode env s) :=
  ⟨fun d => by rw [verify_disks, verify_owes]; exact h.1 d,
   by rw [verify_disks]; exact h.2⟩

theorem setInv_append_summary (s : St) (h : SetInv s) :
    SetInv (append_summary s) :=
  ⟨fun d => by
      rw [append_summary_disks]
      have : owesRemount d (append_summary s).calls = owesRemount d s.calls := by
        rw [append_summary_calls]
      rw [this]
      exact h.1 d,
   by rw [append_summary_disks]; exact h.2⟩

theorem setInv_process (mode : Mode) (env : DiskEnv) (disk : String) (s : St)
    (h : SetInv s) (hfresh : disk ∉ s.UNMOUNTED_DISKS) :
    SetInv (process_disk mode env disk s) := by
  rcases hfsi : env.fsInfo with _ | ⟨_ | t⟩
  · simp only [process_disk, get_filesystem, hfsi]
    exact h
  · simp only [process_disk, get_filesystem, hfsi]
    exact h
  · by_cases ht : t = "unknown"
    · subst ht
      simp only [process_disk, get_filesystem, hfsi]
      exact h
    · simp only [process_disk, get_filesystem, hfsi, if_neg ht]
      set s0 := log_info ("Detected filesystem type for " ++ disk ++ ": " ++ t)
        (log_info ("Checking " ++ disk ++ "...")
          (log_info "----------------------------------------" s)) with hs0
      have hu : SetInv (unmount_disk disk mode env s0).2 :=
        setInv_unmount disk mode env s0 h hfresh
      by_cases hb : (unmount_disk disk mode env s0).1 = false
      · rw [if_pos hb]
        exact hu
      · rw [if_neg hb]
        have hv := setInv_verify disk t mode env _ hu
        by_cases hm : disk ∈ (verify_filesystem disk t mode env
            (unmount_disk disk mode env s0).2).UNMOUNTED_DISKS
        · rw [if_pos hm]
          exact setInv_mount disk mode env.remountOk _ hv
        · rw [if_neg hm]
          exact hv

theorem unmount_frame (disk : String) (mode : Mode) (env : DiskEnv) (s : St)
    (e : String) (hne : e ≠ disk) :
    (e ∈ (unmount_disk disk mode env s).2.UNMOUNTED_DISKS ↔
      e ∈ s.UNMOUNTED_DISKS) ∧
    owesRemount e (unmount_disk disk mode env s).2.calls =
      owesRemount e s.calls := by
  rcases env with ⟨fsi, io, mo, uo, vo, ro, rm⟩
  cases io <;> cases mo <;> cases mode <;> cases uo <;>
    simp [unmount_disk, hne, Ne.symm hne]

theorem mount_frame (disk : String) (mode : Mode) (ok : Bool) (s : St)
    (e : String) (hne : e ≠ disk) :
    (e ∈ (mount_disk disk mode ok s).UNMOUNTED_DISKS ↔
      e ∈ s.UNMOUNTED_DISKS) ∧
    owesRemount e (mount_disk disk mode ok s).calls = owesRemount e s.calls := by
  cases mode <;> cases ok <;>
    simp [mount_disk, List.mem_erase_of_ne hne, Ne.symm hne]

theorem process_frame (mode : Mode) (env : DiskEnv) (disk : String) (s : St)
    (e : String) (hne : e ≠ disk) :
    (e ∈ (process_disk mode env disk s).UNMOUNTED_DISKS ↔
      e ∈ s.UNMOUNTED_DISKS) ∧
    owesRemount e (process_disk mode env disk s).calls =
      owesRemount e s.calls := by
  rcases hfsi : env.fsInfo with _ | ⟨_ | t⟩
  · simp only [process_disk, get_filesystem, hfsi]
    exact ⟨Iff.rfl, rfl⟩
  · simp only [process_disk, get_filesystem, hfsi]
    exact ⟨Iff.rfl, rfl⟩
  · by_cases ht : t = "unknown"
    · subst ht
      simp only [process_disk, get_filesystem, hfsi]
      exact ⟨Iff.rfl, rfl⟩
    · simp only [process_disk, get_filesystem, hfsi, if_neg ht]
      set s0 := log_info ("Detected filesystem type for " ++ disk ++ ": " ++ t)
        (log_info ("Checking " ++ disk ++ "...")
          (log_info "----------------------------------------" s)) with hs0
      have h1 := unmount_frame disk mode env s0 e hne
      by_cases hb : (unmount_disk disk mode env s0).1 = false
      · rw [if_pos hb]
        exact ⟨h1.1, h1.2⟩
      · rw [if_neg hb]
        by_cases hm : disk ∈ (verify_filesystem disk t mode env
            (unmount_disk disk mode env s0).2).UNMOUNTED_DISKS
        · rw [if_pos hm]
          have hm1 := (mount_frame disk mode env.remountOk
            (verify_filesystem disk t mode env
              (unmount_disk disk mode env s0).2) e hne).1
          have hm2 := (mount_frame disk mode env.remountOk
            (verify_filesystem disk t mode env
              (unmount_disk disk mode env s0).2) e hne).2
          rw [verify_disks] at hm1
          rw [verify_owes] at hm2
          exact ⟨hm1.trans h1.1, hm2.trans h1.2⟩
        · rw [if_neg hm]
          constructor
          · have hv : (verify_filesystem disk t mode env
                (unmount_disk disk mode env s0).2).UNMOUNTED_DISKS =
                (unmount_disk disk mode env s0).2.UNMOUNTED_DISKS :=
              verify_disks disk t mode env _
            rw [show (e ∈ (log_info ("Done with " ++ disk ++ ".")
                (verify_filesystem disk t mode env
                  (unmount_disk disk mode env s0).2)).UNMOUNTED_DISKS) =
                (e ∈ (verify_filesystem disk t mode env
                  (unmount_disk disk mode env s0).2).UNMOUNTED_DISKS) from rfl, hv]
            exact h1.1
          · have hv2 := verify_owes disk t mode env
              (unmount_disk disk mode env s0).2 e
            exact hv2.trans h1.2

theorem run_loop_cons (mode : Mode) (denv : String → DiskEnv) (d : String)
    (rest : List String) (s : St) :
    run_loop mode denv (d :: rest) s =
      run_loop mode denv rest (process_disk mode (denv d) d s) := rfl

theorem run_loop_inv (mode : Mode) (denv : String → DiskEnv) :
    ∀ (disks : List String) (s : St), disks.Nodup → SetInv s →
      (∀ e ∈ disks, e ∉ s.UNMOUNTED_DISKS ∧ owesRemount e s.calls = false) →
      SetInv (run_loop mode denv disks s)
  | [], _, _, h, _ => h
  | d :: rest, s, hnd, h, hf => by
      rw [run_loop_cons]
      have hd := hf d (List.mem_cons_self d rest)
      refine run_loop_inv mode denv rest _ hnd.of_cons
        (setInv_process mode (denv d) d s h hd.1) ?_
      intro e he
      have hne : e ≠ d := by
        rintro rfl
        exact (List.nodup_cons.mp hnd).1 he
      have hfr := process_frame mode (denv d) d s e hne
      have hfe := hf e (List.mem_cons_of_mem d he)
      exact ⟨fun hmem => hfe.1 (hfr.1.mp hmem), hfr.2.trans hfe.2⟩

theorem setInv_mount_fold (cenv : String → Bool) :
    ∀ (l : List String) (s : St), SetInv s →
      SetInv (l.foldl (fun st d => mount_disk d Mode.normal (cenv d) st) s)
  | [], _, h => h
  | d :: rest, s, h =>
      setInv_mount_fold cenv rest _ (setInv_mount d Mode.normal (cenv d) s h)

theorem setInv_cleanup (cenv : String → Bool) (s : St) (h : SetInv s) :
    SetInv (cleanup cenv s) := by
  unfold cleanup
  by_cases hc : s.CLEANUP_DONE = false
  · rw [if_pos hc]
    exact setInv_append_summary _
      (setInv_mount_fold cenv s.UNMOUNTED_DISKS (log_info _ s) h)
  · rw [if_neg hc]
    exact h

/-! ## Claims -/

/-- C1: at every disk boundary of the run (after any prefix of the
enumerated disks has been processed), and likewise after a subsequent
`cleanup` invocation, a disk identifier is in `UNMOUNTED_DISKS` iff this
unmount of that disk by this run completed successfully and no later remount of
it completed successfully.  In particular an already-unmounted disk (never
successfully unmounted by this run) is never in the set, and a disk whose
remount failed stays in it. -/
theorem unmounted_set_invariant (mode : Mode) (denv : String → DiskEnv)
    (cenv : String → Bool) (disks : List String) (hnd : disks.Nodup)
    (s0 : St) (hum : s0.UNMOUNTED_DISKS = []) (hcalls : s0.calls = [])
    (k : Nat) :
    (∀ d, d ∈ (run_loop mode denv (disks.take k) s0).UNMOUNTED_DISKS ↔
        owesRemount d (run_loop mode denv (disks.take k) s0).calls = true) ∧
    (∀ d, d ∈ (cleanup cenv
          (run_loop mode denv (disks.take k) s0)).UNMOUNTED_DISKS ↔
        owesRemount d (cleanup cenv
          (run_loop mode denv (disks.take k) s0)).calls = true) := by
  have h0 : SetInv s0 := by
    constructor
    · intro d
      rw [hum, hcalls]
      simp
    · rw [hum]
      exact List.nodup_nil
  have hf : ∀ e ∈ disks.take k,
      e ∉ s0.UNMOUNTED_DISKS ∧ owesRemount e s0.calls = false := by
    intro e _
    rw [hum, hcalls]
    exact ⟨List.not_mem_nil e, rfl⟩
  have hl := run_loop_inv mode denv (disks.take k) s0
    (List.Nodup.sublist (List.take_sublist k disks) hnd) h0 hf
  exact ⟨hl.1, (setInv_cleanup cenv _ hl).1⟩

/-- Witness for C1 at a concrete input: one disk, successfully unmounted,
whose in-loop remount fails. -/
theorem unmounted_set_invariant_witness :
    ("disk9" ∈ (run_loop Mode.normal (fun _ => envRemountFail)
          (["disk9"].take 1) initSt).UNMOUNTED_DISKS ↔
        owesRemount "disk9" (run_loop Mode.normal (fun _ => envRemountFail)
          (["disk9"].take 1) initSt).calls = true) ∧
    ("disk9" ∈ (cleanup (fun _ => true)
          (run_loop Mode.normal (fun _ => envRemountFail)
            (["disk9"].take 1) initSt)).UNMOUNTED_DISKS ↔
        owesRemount "disk9" (cleanup (fun _ => true)
          (run_loop Mode.normal (fun _ => envRemountFail)
            (["disk9"].take 1) initSt)).calls = true) := by
  have h := unmounted_set_invariant Mode.normal (fun _ => envRemountFail)
    (fun _ => true) ["disk9"] (by simp) initSt rfl rfl 1
  exact ⟨h.1 "disk9", h.2 "disk9"⟩

theorem mount_fold_calls (cenv : String → Bool) :
    ∀ (l : List String) (s : St),
      (l.foldl (fun st d => mount_disk d Mode.normal (cenv d) st) s).calls =
        s.calls ++ l.map (fun d => Ev.mountCall d (cenv d))
  | [], s => by simp
  | d :: rest, s => by
      rw [List.foldl_cons, mount_fold_calls cenv rest, mount_calls_normal]
      simp

theorem mount_fold_done (cenv : String → Bool) :
    ∀ (l : List String) (s : St),
      (l.foldl (fun st d => mount_disk d Mode.normal (cenv d) st)
        s).CLEANUP_DONE = s.CLEANUP_DONE
  | [], _ => rfl
  | d :: rest, s => by
      rw [List.foldl_cons, mount_fold_done cenv rest, mount_done]

theorem mount_fold_blocks (cenv : String → Bool) :
    ∀ (l : List String) (s : St),
      (l.foldl (fun st d => mount_disk d Mode.normal (cenv d) st)
        s).summary_blocks = s.summary_blocks
  | [], _ => rfl
  | d :: rest, s => by
      rw [List.foldl_cons, mount_fold_blocks cenv rest, mount_blocks]

theorem cleanup_calls_eq (cenv : String → Bool) (s : St)
    (hc : s.CLEANUP_DONE = false) :
    (cleanup cenv s).calls = s.calls ++
      s.UNMOUNTED_DISKS.map (fun d => Ev.mountCall d (cenv d)) := by
  unfold cleanup
  rw [if_pos hc]
  show (append_summary (s.UNMOUNTED_DISKS.foldl
    (fun st d => mount_disk d Mode.normal (cenv d) st) (log_info _ s))).calls = _
  rw [append_summary_calls, mount_fold_calls, log_info_calls]

theorem cleanup_blocks_len (cenv : String → Bool) (s : St)
    (hc : s.CLEANUP_DONE = false) :
    (cleanup cenv s).summary_blocks.length = s.summary_blocks.length + 1 := by
  unfold cleanup
  rw [if_pos hc]
  show (append_summary (s.UNMOUNTED_DISKS.foldl
    (fun st d => mount_disk d Mode.normal (cenv d) st)
      (log_info _ s))).summary_blocks.length = _
  rw [append_summary_blocks, mount_fold_blocks, log_info_blocks]
  simp

theorem cleanup_sets_done (cenv : String → Bool) (s : St)
    (hc : s.CLEANUP_DONE = false) :
    (cleanup cenv s).CLEANUP_DONE = true := by
  unfold cleanup
  rw [if_pos hc]

theorem cleanup_idem (cenv : String → Bool) (s : St) :
    cleanup cenv (cleanup cenv s) = cleanup cenv s := by
  by_cases hc : s.CLEANUP_DONE = false
  · exact cleanup_done_id cenv _ (cleanup_sets_done cenv s hc)
  · rw [cleanup_done_id cenv s (by simpa using hc),
      cleanup_done_id cenv s (by simpa using hc)]

/-- C2 counterexample: a normal run over one disk whose in-loop remount
fails.  `main` appends the summary and sets `CLEANUP_DONE` itself before
exiting, so the only `cleanup` invocation of the run (from `atexit`) performs no
remount attempt even though `disk9` is still in the Unmounted-Set and the
remount `cleanup` would have issued (`cenv`) would have succeeded: the
final trace holds no successful `mountDisk` call, refuting the claim that
the first `cleanup` invocation attempts a remount for every identifier
still in the set. -/
theorem cleanup_first_invocation_no_sweep_cex :
    (main_run inpRemountFail).2.UNMOUNTED_DISKS = ["disk9"] ∧
    (main_run inpRemountFail).2.CLEANUP_DONE = true ∧
    (main_run inpRemountFail).2.calls =
      [Ev.unmountCall "disk9" true, Ev.verifyCall "disk9" true,
        Ev.mountCall "disk9" false] ∧
    inpRemountFail.cenv "disk9" = true := by
  refine ⟨rfl, rfl, rfl, rfl⟩

/-- C2 amended: the effect of `cleanup` is guarded solely by `CLEANUP_DONE` and
happens at most once: `cleanup` is idempotent, an invocation finding the
flag set does nothing, and an invocation finding the flag unset issues
exactly one remount attempt per identifier in the Unmounted-Set, appends
exactly one summary block, and sets the flag.  On the normal-completion
path, however, `main` itself appends the summary and sets the flag without
any remount sweep, so there the first `cleanup` invocation already finds
the flag set and remounts nothing (see the counterexample). -/
theorem cleanup_at_most_once (cenv : String → Bool) (s : St) :
    cleanup cenv (cleanup cenv s) = cleanup cenv s ∧
    (s.CLEANUP_DONE = true → cleanup cenv s = s) ∧
    (s.CLEANUP_DONE = false →
      (cleanup cenv s).calls = s.calls ++
        s.UNMOUNTED_DISKS.map (fun d => Ev.mountCall d (cenv d)) ∧
      (cleanup cenv s).summary_blocks.length = s.summary_blocks.length + 1 ∧
      (cleanup cenv s).CLEANUP_DONE = true) :=
  ⟨cleanup_idem cenv s, cleanup_done_id cenv s,
    fun hc => ⟨cleanup_calls_eq cenv s hc, cleanup_blocks_len cenv s hc,
      cleanup_sets_done cenv s hc⟩⟩

/-- Witness for C2 (amended) at a concrete state owing one remount. -/
theorem cleanup_at_most_once_witness :
    cleanup (fun _ => true) (cleanup (fun _ => true) s9) =
      cleanup (fun _ => true) s9 ∧
    (cleanup (fun _ => true) s9).calls = s9.calls ++
      s9.UNMOUNTED_DISKS.map (fun d => Ev.mountCall d true) ∧
    (cleanup (fun _ => true) s9).summary_blocks.length =
      s9.summary_blocks.length + 1 ∧
    (cleanup (fun _ => true) s9).CLEANUP_DONE = true := by
  have h := cleanup_at_most_once (fun _ => true) s9
  exact ⟨h.1, (h.2.2 rfl).1, (h.2.2 rfl).2.1, (h.2.2 rfl).2.2⟩

theorem unmount_done (disk : String) (mode : Mode) (env : DiskEnv) (s : St) :
    (unmount_disk disk mode env s).2.CLEANUP_DONE = s.CLEANUP_DONE := by
  rcases env with ⟨fsi, io, mo, uo, vo, ro, rm⟩
  cases io <;> cases mo <;> cases mode <;> cases uo <;> simp [unmount_disk]

theorem unmount_blocks (disk : String) (mode : Mode) (env : DiskEnv) (s : St) :
    (unmount_disk disk mode env s).2.summary_blocks = s.summary_blocks := by
  rcases env with ⟨fsi, io, mo, uo, vo, ro, rm⟩
  cases io <;> cases mo <;> cases mode <;> cases uo <;> simp [unmount_disk]

theorem process_done (mode : Mode) (env : DiskEnv) (disk : String) (s : St) :
    (process_disk mode env disk s).CLEANUP_DONE = s.CLEANUP_DONE := by
  rcases hfsi : env.fsInfo with _ | ⟨_ | t⟩
  · simp only [process_disk, get_filesystem, hfsi]
    rfl
  · simp only [process_disk, get_filesystem, hfsi]
    rfl
  · by_cases ht : t = "unknown"
    · subst ht
      simp only [process_disk, get_filesystem, hfsi]
      rfl
    · simp only [process_disk, get_filesystem, hfsi, if_neg ht]
      set s0 := log_info ("Detected filesystem type for " ++ disk ++ ": " ++ t)
        (log_info ("Checking " ++ disk ++ "...")
          (log_info "----------------------------------------" s)) with hs0
      by_cases hb : (unmount_disk disk mode env s0).1 = false
      · rw [if_pos hb, unmount_done]
        rfl
      · rw [if_neg hb]
        by_cases hm : disk ∈ (verify_filesystem disk t mode env
            (unmount_disk disk mode env s0).2).UNMOUNTED_DISKS
        · rw [if_pos hm]
          simp only [log_info_done, mount_done, verify_done, unmount_done]
          rfl
        · rw [if_neg hm]
          simp only [log_info_done, verify_done, unmount_done]
          rfl

theorem process_blocks (mode : Mode) (env : DiskEnv) (disk : String) (s : St) :
    (process_disk mode env disk s).summary_blocks = s.summary_blocks := by
  rcases hfsi : env.fsInfo with _ | ⟨_ | t⟩
  · simp only [process_disk, get_filesystem, hfsi]
    rfl
  · simp only [process_disk, get_filesystem, hfsi]
    rfl
  · by_cases ht : t = "unknown"
    · subst ht
      simp only [process_disk, get_filesystem, hfsi]
      rfl
    · simp only [process_disk, get_filesystem, hfsi, if_neg ht]
      set s0 := log_info ("Detected filesystem type for " ++ disk ++ ": " ++ t)
        (log_info ("Checking " ++ disk ++ "...")
          (log_info "----------------------------------------" s)) with hs0
      by_cases hb : (unmount_disk disk mode env s0).1 = false
      · rw [if_pos hb, unmount_blocks]
        rfl
      · rw [if_neg hb]
        by_cases hm : disk ∈ (verify_filesystem disk t mode env
            (unmount_disk disk mode env s0).2).UNMOUNTED_DISKS
        · rw [if_pos hm]
          simp only [log_info_blocks, mount_blocks, verify_blocks,
            unmount_blocks]
          rfl
        · rw [if_neg hm]
          simp only [log_info_blocks, verify_blocks, unmount_blocks]
          rfl

theorem run_loop_done (mode : Mode) (denv : String → DiskEnv) :
    ∀ (disks : List String) (s : St),
      (run_loop mode denv disks s).CLEANUP_DONE = s.CLEANUP_DONE
  | [], _ => rfl
  | d :: rest, s => by
      rw [run_loop_cons, run_loop_done mode denv rest, process_done]

theorem run_loop_blocks (mode : Mode) (denv : String → DiskEnv) :
    ∀ (disks : List String) (s : St),
      (run_loop mode denv disks s).summary_blocks = s.summary_blocks
  | [], _ => rfl
  | d :: rest, s => by
      rw [run_loop_cons, run_loop_blocks mode denv rest, process_blocks]

theorem is_sys_done (disk : String) (c : SysCheck) (s : St) :
    (is_system_disk disk c s).2.CLEANUP_DONE = s.CLEANUP_DONE := by
  rcases c with ⟨lo, sp⟩
  cases lo <;> by_cases hp : sp.any (fun p => disk.isPrefixOf p) <;>
    simp [is_system_disk, hp]

theorem is_sys_blocks (disk : String) (c : SysCheck) (s : St) :
    (is_system_disk disk c s).2.summary_blocks = s.summary_blocks := by
  rcases c with ⟨lo, sp⟩
  cases lo <;> by_cases hp : sp.any (fun p => disk.isPrefixOf p) <;>
    simp [is_system_disk, hp]

theorem is_sys_calls (disk : String) (c : SysCheck) (s : St) :
    (is_system_disk disk c s).2.calls = s.calls := by
  rcases c with ⟨lo, sp⟩
  cases lo <;> by_cases hp : sp.any (fun p => disk.isPrefixOf p) <;>
    simp [is_system_disk, hp]

theorem is_sys_disks (disk : String) (c : SysCheck) (s : St) :
    (is_system_disk disk c s).2.UNMOUNTED_DISKS = s.UNMOUNTED_DISKS := by
  rcases c with ⟨lo, sp⟩
  cases lo <;> by_cases hp : sp.any (fun p => disk.isPrefixOf p) <;>
    simp [is_system_disk, hp]

theorem gets_fold_done (sysc : String → SysCheck) :
    ∀ (cands : List String) (acc : List String × St),
      ((cands.foldl (fun (acc : List String × St) d =>
        let p := is_system_disk d (sysc d) acc.2
        (if p.1 then acc.1 else acc.1 ++ [d], p.2)) acc).2).CLEANUP_DONE =
      acc.2.CLEANUP_DONE
  | [], _ => rfl
  | d :: rest, acc => by
      rw [List.foldl_cons, gets_fold_done sysc rest]
      exact is_sys_done d (sysc d) acc.2

theorem gets_fold_blocks (sysc : String → SysCheck) :
    ∀ (cands : List String) (acc : List String × St),
      ((cands.foldl (fun (acc : List String × St) d =>
        let p := is_system_disk d (sysc d) acc.2
        (if p.1 then acc.1 else acc.1 ++ [d], p.2)) acc).2).summary_blocks =
      acc.2.summary_blocks
  | [], _ => rfl
  | d :: rest, acc => by
      rw [List.foldl_cons, gets_fold_blocks sysc rest]
      exact is_sys_blocks d (sysc d) acc.2

theorem gets_fold_calls (sysc : String → SysCheck) :
    ∀ (cands : List String) (acc : List String × St),
      ((cands.foldl (fun (acc : List String × St) d =>
        let p := is_system_disk d (sysc d) acc.2
        (if p.1 then acc.1 else acc.1 ++ [d], p.2)) acc).2).calls =
      acc.2.calls
  | [], _ => rfl
  | d :: rest, acc => by
      rw [List.foldl_cons, gets_fold_calls sysc rest]
      exact is_sys_calls d (sysc d) acc.2

theorem gets_fold_disks (sysc : String → SysCheck) :
    ∀ (cands : List String) (acc : List String × St),
      ((cands.foldl (fun (acc : List String × St) d =>
        let p := is_system_disk d (sysc d) acc.2
        (if p.1 then acc.1 else acc.1 ++ [d], p.2)) acc).2).UNMOUNTED_DISKS =
      acc.2.UNMOUNTED_DISKS
  | [], _ => rfl
  | d :: rest, acc => by
      rw [List.foldl_cons, gets_fold_disks sysc rest]
      exact is_sys_disks d (sysc d) acc.2

theorem gets_done (enum : Option (List String)) (sysc : String → SysCheck)
    (s : St) : (get_external_disks enum sysc s).2.CLEANUP_DONE =
      s.CLEANUP_DONE := by
  cases enum with
  | none => rfl
  | some cands =>
      simp only [get_external_disks, log_info_done]
      exact gets_fold_done sysc cands ([], s)

theorem gets_blocks (enum : Option (List String)) (sysc : String → SysCheck)
    (s : St) : (get_external_disks enum sysc s).2.summary_blocks =
      s.summary_blocks := by
  cases enum with
  | none => rfl
  | some cands =>
      simp only [get_external_disks, log_info_blocks]
      exact gets_fold_blocks sysc cands ([], s)

theorem gets_calls (enum : Option (List String)) (sysc : String → SysCheck)
    (s : St) : (get_external_disks enum sysc s).2.calls = s.calls := by
  cases enum with
  | none => rfl
  | some cands =>
      simp only [get_external_disks, log_info_calls]
      exact gets_fold_calls sysc cands ([], s)

theorem gets_disks (enum : Option (List String)) (sysc : String → SysCheck)
    (s : St) : (get_external_disks enum sysc s).2.UNMOUNTED_DISKS =
      s.UNMOUNTED_DISKS := by
  cases enum with
  | none => rfl
  | some cands =>
      simp only [get_external_disks, log_info_disks]
      exact gets_fold_disks sysc cands ([], s)

/-- C3 counterexample: a disk whose filesystem type reads back successfully
as `zfs`, a type outside the allow-list.  Processing it in normal mode
still issues a `diskutil unmountDisk` call (and a `mountDisk` call),
refuting the claim that such a disk is treated exactly like `Unknown` with
no unmount ever issued: the source only short-circuits before unmount on
the literal type `"unknown"`, while the allow-list test sits inside
`verify_filesystem`, after the unmount. -/
theorem unsupported_type_still_unmounts_cex :
    envZfs.fsInfo = some (some "zfs") ∧
    "zfs" ∉ SUPPORTED_FILESYSTEMS ∧
    Ev.unmountCall "disk1" true ∈
      (process_disk Mode.normal envZfs "disk1" initSt).calls ∧
    Ev.mountCall "disk1" true ∈
      (process_disk Mode.normal envZfs "disk1" initSt).calls := by
  refine ⟨rfl, by decide, by decide, by decide⟩

/-- C3 amended: for a disk whose filesystem type is read successfully but
is not in the allow-list (and is not the literal string `"unknown"`), an
error is logged and verification is skipped — no `verifyVolume` or
`repairVolume` call is issued — but the disk is not skipped before
unmounting: in normal mode with the disk mounted and the unmount
succeeding, the `unmountDisk` call and the subsequent `mountDisk` remount
are issued exactly as for a supported type. -/
theorem unsupported_type_skips_verification_only (env : DiskEnv)
    (disk fs : String) (s : St)
    (hfs : env.fsInfo = some (some fs))
    (hns : fs ∉ SUPPORTED_FILESYSTEMS)
    (hnu : fs ≠ "unknown")
    (hio : env.infoOk = true) (hmo : env.mounted = true)
    (huo : env.unmountOk = true) :
    unsupportedMsg fs disk ∈ (process_disk Mode.normal env disk s).error_log ∧
    (∀ b : Bool, Ev.verifyCall disk b ∉ s.calls →
      Ev.verifyCall disk b ∉ (process_disk Mode.normal env disk s).calls) ∧
    (∀ b : Bool, Ev.repairCall disk b ∉ s.calls →
      Ev.repairCall disk b ∉ (process_disk Mode.normal env disk s).calls) ∧
    Ev.unmountCall disk true ∈ (process_disk Mode.normal env disk s).calls ∧
    Ev.mountCall disk env.remountOk ∈
      (process_disk Mode.normal env disk s).calls := by
  rcases env with ⟨fsi, io, mo, uo, vo, ro, rm⟩
  simp only at hfs hio hmo huo
  subst hfs
  subst hio
  subst hmo
  subst huo
  cases rm <;>
    simp [process_disk, get_filesystem, hnu, unmount_disk, verify_filesystem,
      hns, mount_disk]

/-- Witness for C3 (amended) at the concrete `zfs` disk. -/
theorem unsupported_type_skips_verification_only_witness :
    unsupportedMsg "zfs" "disk1" ∈
      (process_disk Mode.normal envZfs "disk1" initSt).error_log ∧
    (∀ b : Bool, Ev.verifyCall "disk1" b ∉ initSt.calls →
      Ev.verifyCall "disk1" b ∉
        (process_disk Mode.normal envZfs "disk1" initSt).calls) ∧
    (∀ b : Bool, Ev.repairCall "disk1" b ∉ initSt.calls →
      Ev.repairCall "disk1" b ∉
        (process_disk Mode.normal envZfs "disk1" initSt).calls) ∧
    Ev.unmountCall "disk1" true ∈
      (process_disk Mode.normal envZfs "disk1" initSt).calls ∧
    Ev.mountCall "disk1" envZfs.remountOk ∈
      (process_disk Mode.normal envZfs "disk1" initSt).calls :=
  unsupported_type_skips_verification_only envZfs "disk1" "zfs" initSt rfl
    (by decide) (by decide) rfl rfl rfl

/-- C4: a run that completes normally (prerequisites pass, no signal)
exits with status 0 — the `SystemExit(1)` later raised by `cleanup` inside
the `atexit` callback is ignored by CPython 3 — while prerequisite failure
exits with the nonzero status 1, and an interrupted run exits with the
nonzero status 1 after `cleanup` has run (the done-flag is set and exactly
one summary block has been appended before the process exits). -/
theorem exit_status_spec (inp : RunInput) (k : Nat) :
    (inp.commandsOk = true → inp.isRoot = true → (main_run inp).1 = 0) ∧
    (inp.commandsOk = false ∨ inp.isRoot = false → (main_run inp).1 = 1) ∧
    (main_interrupted inp k).1 = 1 ∧
    (main_interrupted inp k).2.CLEANUP_DONE = true ∧
    (main_interrupted inp k).2.summary_blocks.length = 1 := by
  set sL := run_loop inp.mode inp.denv
    ((get_external_disks inp.enum inp.sysc
      (log_info "Starting disk checks." initSt)).1.take k)
    (get_external_disks inp.enum inp.sysc
      (log_info "Starting disk checks." initSt)).2 with hsL
  have e2 : (main_interrupted inp k).2 =
      cleanup inp.cenv (cleanup inp.cenv sL) := rfl
  have hdone : sL.CLEANUP_DONE = false := by
    rw [hsL, run_loop_done, gets_done]
    rfl
  refine ⟨?_, ?_, rfl, ?_, ?_⟩
  · intro h1 h2
    simp [main_run, h1, h2, atexit_exit]
  · rintro (h | h)
    · simp [main_run, h, atexit_exit]
    · by_cases hc : inp.commandsOk = false
      · simp [main_run, hc, atexit_exit]
      · simp [main_run, hc, h, atexit_exit]
  · rw [e2, cleanup_done_id inp.cenv _ (cleanup_sets_done inp.cenv _ hdone)]
    exact cleanup_sets_done inp.cenv _ hdone
  · rw [e2, cleanup_done_id inp.cenv _ (cleanup_sets_done inp.cenv _ hdone),
      cleanup_blocks_len inp.cenv _ hdone, hsL, run_loop_blocks, gets_blocks]
    rfl

/-- Witness for C4 at concrete inputs: an empty normal run, a run failing
the root check, and an interrupted run. -/
theorem exit_status_spec_witness :
    (main_run inpEmpty).1 = 0 ∧
    (main_run inpNoRoot).1 = 1 ∧
    (main_interrupted inpEmpty 0).1 = 1 ∧
    (main_interrupted inpEmpty 0).2.CLEANUP_DONE = true ∧
    (main_interrupted inpEmpty 0).2.summary_blocks.length = 1 := by
  have h1 := exit_status_spec inpEmpty 0
  have h2 := exit_status_spec inpNoRoot 0
  exact ⟨h1.1 rfl rfl, h2.2.1 (Or.inr rfl), h1.2.2.1, h1.2.2.2.1,
    h1.2.2.2.2⟩

theorem unmount_dry_calls (disk : String) (env : DiskEnv) (s : St) :
    (unmount_disk disk Mode.dry env s).2.calls = s.calls := by
  rcases env with ⟨fsi, io, mo, uo, vo, ro, rm⟩
  cases io <;> cases mo <;> simp [unmount_disk]

theorem unmount_dry_disks (disk : String) (env : DiskEnv) (s : St) :
    (unmount_disk disk Mode.dry env s).2.UNMOUNTED_DISKS =
      s.UNMOUNTED_DISKS := by
  rcases env with ⟨fsi, io, mo, uo, vo, ro, rm⟩
  cases io <;> cases mo <;> simp [unmount_disk]

theorem verify_dry_calls (disk fs_type : String) (env : DiskEnv) (s : St) :
    (verify_filesystem disk fs_type Mode.dry env s).calls = s.calls := by
  by_cases hs : fs_type ∈ SUPPORTED_FILESYSTEMS <;>
    simp [verify_filesystem, hs]

theorem process_dry_calls (env : DiskEnv) (disk : String) (s : St) :
    (process_disk Mode.dry env disk s).calls = s.calls := by
  rcases hfsi : env.fsInfo with _ | ⟨_ | t⟩
  · simp only [process_disk, get_filesystem, hfsi]
    rfl
  · simp only [process_disk, get_filesystem, hfsi]
    rfl
  · by_cases ht : t = "unknown"
    · subst ht
      simp only [process_disk, get_filesystem, hfsi]
      rfl
    · simp only [process_disk, get_filesystem, hfsi, if_neg ht]
      set s0 := log_info ("Detected filesystem type for " ++ disk ++ ": " ++ t)
        (log_info ("Checking " ++ disk ++ "...")
          (log_info "----------------------------------------" s)) with hs0
      by_cases hb : (unmount_disk disk Mode.dry env s0).1 = false
      · rw [if_pos hb, unmount_dry_calls]
        rfl
      · rw [if_neg hb]
        by_cases hm : disk ∈ (verify_filesystem disk t Mode.dry env
            (unmount_disk disk Mode.dry env s0).2).UNMOUNTED_DISKS
        · rw [if_pos hm]
          simp only [log_info_calls, mount_calls_dry, verify_dry_calls,
            unmount_dry_calls]
          rfl
        · rw [if_neg hm]
          simp only [log_info_calls, verify_dry_calls, unmount_dry_calls]
          rfl

theorem process_dry_disks (env : DiskEnv) (disk : String) (s : St) :
    (process_disk Mode.dry env disk s).UNMOUNTED_DISKS =
      s.UNMOUNTED_DISKS := by
  rcases hfsi : env.fsInfo with _ | ⟨_ | t⟩
  · simp only [process_disk, get_filesystem, hfsi]
    rfl
  · simp only [process_disk, get_filesystem, hfsi]
    rfl
  · by_cases ht : t = "unknown"
    · subst ht
      simp only [process_disk, get_filesystem, hfsi]
      rfl
    · simp only [process_disk, get_filesystem, hfsi, if_neg ht]
      set s0 := log_info ("Detected filesystem type for " ++ disk ++ ": " ++ t)
        (log_info ("Checking " ++ disk ++ "...")
          (log_info "----------------------------------------" s)) with hs0
      by_cases hb : (unmount_disk disk Mode.dry env s0).1 = false
      · rw [if_pos hb, unmount_dry_disks]
        rfl
      · rw [if_neg hb]
        by_cases hm : disk ∈ (verify_filesystem disk t Mode.dry env
            (unmount_disk disk Mode.dry env s0).2).UNMOUNTED_DISKS
        · rw [if_pos hm]
          simp only [log_info_disks, mount_disks_dry, verify_disks,
            unmount_dry_disks]
          rfl
        · rw [if_neg hm]
          simp only [log_info_disks, verify_disks, unmount_dry_disks]
          rfl

theorem run_loop_dry_calls (denv : String → DiskEnv) :
    ∀ (disks : List String) (s : St),
      (run_loop Mode.dry denv disks s).calls = s.calls
  | [], _ => rfl
  | d :: rest, s => by
      rw [run_loop_cons, run_loop_dry_calls denv rest, process_dry_calls]

theorem run_loop_dry_disks (denv : String → DiskEnv) :
    ∀ (disks : List String) (s : St),
      (run_loop Mode.dry denv disks s).UNMOUNTED_DISKS = s.UNMOUNTED_DISKS
  | [], _ => rfl
  | d :: rest, s => by
      rw [run_loop_cons, run_loop_dry_disks denv rest, process_dry_disks]

theorem cleanup_disks_of_empty (cenv : String → Bool) (s : St)
    (hc : s.CLEANUP_DONE = false) (hd : s.UNMOUNTED_DISKS = []) :
    (cleanup cenv s).UNMOUNTED_DISKS = [] := by
  unfold cleanup
  rw [if_pos hc]
  show (append_summary (s.UNMOUNTED_DISKS.foldl
    (fun st d => mount_disk d Mode.normal (cenv d) st)
      (log_info _ s))).UNMOUNTED_DISKS = []
  rw [hd]
  simp only [List.foldl_nil, append_summary_disks, log_info_disks]
  exact hd

theorem main_run_eq (inp : RunInput) (hok : inp.commandsOk = true)
    (hroot : inp.isRoot = true) :
    main_run inp = atexit_exit 0 inp.cenv
      { append_summary (log_info "Disk Check Completed."
          (log_info "----------------------------------------"
            (if (get_external_disks inp.enum inp.sysc
                (log_info "Starting disk checks." initSt)).1.isEmpty then
              log_info noDisksMsg (get_external_disks inp.enum inp.sysc
                (log_info "Starting disk checks." initSt)).2
            else
              run_loop inp.mode inp.denv
                (get_external_disks inp.enum inp.sysc
                  (log_info "Starting disk checks." initSt)).1
                (get_external_disks inp.enum inp.sysc
                  (log_info "Starting disk checks." initSt)).2)))
        with CLEANUP_DONE := true } := by
  unfold main_run
  rw [if_neg (by simp [hok]), if_neg (by simp [hroot])]

/-- C5: in DryRun mode (prerequisites passing), no state-mutating
`diskutil` call is ever recorded — the trace of
`unmountDisk`/`mountDisk`/`verifyVolume`/`repairVolume` invocations stays
empty — the Unmounted-Set stays empty, and the run still appends exactly
one summary block; the same holds if the dry run is interrupted at any
disk boundary. -/
theorem dry_run_no_mutations (inp : RunInput) (k : Nat)
    (hmode : inp.mode = Mode.dry)
    (hok : inp.commandsOk = true) (hroot : inp.isRoot = true) :
    (main_run inp).2.calls = [] ∧
    (main_run inp).2.UNMOUNTED_DISKS = [] ∧
    (main_run inp).2.summary_blocks.length = 1 ∧
    (main_interrupted inp k).2.calls = [] ∧
    (main_interrupted inp k).2.UNMOUNTED_DISKS = [] ∧
    (∀ (env : DiskEnv) (d : String) (s : St) (fs : String),
      env.fsInfo = some (some fs) → fs ≠ "unknown" →
      env.infoOk = true → env.mounted = true →
      (Sev.info, "Dry run: Would attempt to unmount " ++ d ++ ".") ∈
        (process_disk Mode.dry env d s).spec_log ∧
      (fs ∈ SUPPORTED_FILESYSTEMS →
        (Sev.info, "Dry run: Would verify " ++ d ++ " with filesystem type "
          ++ fs ++ ".") ∈ (process_disk Mode.dry env d s).spec_log)) := by
  set g := get_external_disks inp.enum inp.sysc
    (log_info "Starting disk checks." initSt) with hg
  have hbody_calls : (if g.1.isEmpty then log_info noDisksMsg g.2
      else run_loop inp.mode inp.denv g.1 g.2).calls = [] := by
    by_cases he : g.1.isEmpty
    · rw [if_pos he, log_info_calls, hg, gets_calls]
      rfl
    · rw [if_neg he, hmode, run_loop_dry_calls, hg, gets_calls]
      rfl
  have hbody_disks : (if g.1.isEmpty then log_info noDisksMsg g.2
      else run_loop inp.mode inp.denv g.1 g.2).UNMOUNTED_DISKS = [] := by
    by_cases he : g.1.isEmpty
    · rw [if_pos he, log_info_disks, hg, gets_disks]
      rfl
    · rw [if_neg he, hmode, run_loop_dry_disks, hg, gets_disks]
      rfl
  have hbody_blocks : (if g.1.isEmpty then log_info noDisksMsg g.2
      else run_loop inp.mode inp.denv g.1 g.2).summary_blocks = [] := by
    by_cases he : g.1.isEmpty
    · rw [if_pos he, log_info_blocks, hg, gets_blocks]
      rfl
    · rw [if_neg he, hmode, run_loop_blocks, hg, gets_blocks]
      rfl
  have hL_calls : (run_loop inp.mode inp.denv (g.1.take k) g.2).calls = [] := by
    rw [hmode, run_loop_dry_calls, hg, gets_calls]
    rfl
  have hL_disks : (run_loop inp.mode inp.denv
      (g.1.take k) g.2).UNMOUNTED_DISKS = [] := by
    rw [hmode, run_loop_dry_disks, hg, gets_disks]
    rfl
  have hL_done : (run_loop inp.mode inp.denv (g.1.take k) g.2).CLEANUP_DONE
      = false := by
    rw [run_loop_done, hg, gets_done]
    rfl
  have eI : (main_interrupted inp k).2 = cleanup inp.cenv (cleanup inp.cenv
      (run_loop inp.mode inp.denv (g.1.take k) g.2)) := rfl
  refine ⟨?_, ?_, ?_, ?_, ?_, ?_⟩
  · rw [main_run_eq inp hok hroot]
    show (cleanup inp.cenv _).calls = []
    rw [cleanup_done_id _ _ rfl]
    show (append_summary _).calls = []
    rw [append_summary_calls, log_info_calls, log_info_calls]
    exact hbody_calls
  · rw [main_run_eq inp hok hroot]
    show (cleanup inp.cenv _).UNMOUNTED_DISKS = []
    rw [cleanup_done_id _ _ rfl]
    show (append_summary _).UNMOUNTED_DISKS = []
    rw [append_summary_disks, log_info_disks, log_info_disks]
    exact hbody_disks
  · rw [main_run_eq inp hok hroot]
    show (cleanup inp.cenv _).summary_blocks.length = 1
    rw [cleanup_done_id _ _ rfl]
    show (append_summary _).summary_blocks.length = 1
    rw [append_summary_blocks]
    simp only [log_info_blocks, List.length_append, hbody_blocks]
    rfl
  · rw [eI, cleanup_done_id _ _ (cleanup_sets_done _ _ hL_done),
      cleanup_calls_eq _ _ hL_done, hL_calls, hL_disks]
    rfl
  · rw [eI, cleanup_done_id _ _ (cleanup_sets_done _ _ hL_done)]
    exact cleanup_disks_of_empty _ _ hL_done hL_disks
  · intro env d s fs hfs hnu hio hmo
    rcases env with ⟨fsi, io, mo, uo, vo, ro, rm⟩
    simp only at hfs hio hmo
    subst hfs
    subst hio
    subst hmo
    by_cases hsup : fs ∈ SUPPORTED_FILESYSTEMS <;>
      by_cases hmem : d ∈ s.UNMOUNTED_DISKS <;>
      constructor <;>
      simp [process_disk, get_filesystem, hnu, unmount_disk,
        verify_filesystem, hsup, hmem, mount_disk, log_info, log_error]

/-- Witness for C5 at a concrete dry run over one healthy disk. -/
theorem dry_run_no_mutations_witness :
    (main_run inpDry).2.calls = [] ∧
    (main_run inpDry).2.UNMOUNTED_DISKS = [] ∧
    (main_run inpDry).2.summary_blocks.length = 1 ∧
    (main_interrupted inpDry 1).2.calls = [] ∧
    (main_interrupted inpDry 1).2.UNMOUNTED_DISKS = [] ∧
    (Sev.info, "Dry run: Would attempt to unmount " ++ "disk1" ++ ".") ∈
      (process_disk Mode.dry envBasic "disk1" initSt).spec_log ∧
    (Sev.info, "Dry run: Would verify " ++ "disk1" ++ " with filesystem type "
      ++ "apfs" ++ ".") ∈
      (process_disk Mode.dry envBasic "disk1" initSt).spec_log := by
  have h := dry_run_no_mutations inpDry 1 rfl rfl rfl
  have hw := h.2.2.2.2.2 envBasic "disk1" initSt "apfs" rfl (by decide) rfl rfl
  exact ⟨h.1, h.2.1, h.2.2.1, h.2.2.2.1, h.2.2.2.2.1, hw.1, hw.2 (by decide)⟩

/-- C6: in normal mode, when a supported disk unmounts successfully but
verification fails and the repair also fails, the manual-intervention
error is logged, a `repairVolume` call was indeed issued and failed, the
run still issues the `mountDisk` remount for the disk (it was unmounted by
this run, so it is not left unmounted merely because repair failed), and
the loop then continues with the next disk. -/
theorem repair_failure_still_remounts (env : DiskEnv) (disk fs : String)
    (s : St)
    (hfs : env.fsInfo = some (some fs))
    (hsup : fs ∈ SUPPORTED_FILESYSTEMS)
    (hio : env.infoOk = true) (hmo : env.mounted = true)
    (huo : env.unmountOk = true)
    (hvo : env.verifyOk = false) (hro : env.repairOk = false) :
    repairFailedMsg disk ∈
      (process_disk Mode.normal env disk s).error_log ∧
    Ev.repairCall disk false ∈ (process_disk Mode.normal env disk s).calls ∧
    Ev.mountCall disk env.remountOk ∈
      (process_disk Mode.normal env disk s).calls ∧
    (∀ (denv : String → DiskEnv) (rest : List String), denv disk = env →
      run_loop Mode.normal denv (disk :: rest) s =
        run_loop Mode.normal denv rest
          (process_disk Mode.normal env disk s)) := by
  have hnu : fs ≠ "unknown" := by
    rintro rfl
    exact absurd hsup (by decide)
  rcases env with ⟨fsi, io, mo, uo, vo, ro, rm⟩
  simp only at hfs hio hmo huo hvo hro
  subst hfs
  subst hio
  subst hmo
  subst huo
  subst hvo
  subst hro
  refine ⟨?_, ?_, ?_, ?_⟩
  · cases rm <;>
      simp [process_disk, get_filesystem, hnu, unmount_disk,
        verify_filesystem, hsup, mount_disk]
  · cases rm <;>
      simp [process_disk, get_filesystem, hnu, unmount_disk,
        verify_filesystem, hsup, mount_disk]
  · cases rm <;>
      simp [process_disk, get_filesystem, hnu, unmount_disk,
        verify_filesystem, hsup, mount_disk]
  · intro denv rest h
    rw [run_loop_cons, h]

/-- Witness for C6 at a concrete disk whose verify and repair fail. -/
theorem repair_failure_still_remounts_witness :
    repairFailedMsg "disk3" ∈
      (process_disk Mode.normal envRepairFail "disk3" initSt).error_log ∧
    Ev.repairCall "disk3" false ∈
      (process_disk Mode.normal envRepairFail "disk3" initSt).calls ∧
    Ev.mountCall "disk3" envRepairFail.remountOk ∈
      (process_disk Mode.normal envRepairFail "disk3" initSt).calls ∧
    run_loop Mode.normal (fun _ => envRepairFail) ["disk3", "disk4"] initSt =
      run_loop Mode.normal (fun _ => envRepairFail) ["disk4"]
        (process_disk Mode.normal envRepairFail "disk3" initSt) := by
  have h := repair_failure_still_remounts envRepairFail "disk3" "apfs" initSt
    rfl (by decide) rfl rfl rfl rfl rfl
  exact ⟨h.1, h.2.1, h.2.2.1, h.2.2.2 (fun _ => envRepairFail) ["disk4"] rfl⟩

/-- C7: when the unmount attempt for a disk fails (in normal mode, with
the disk mounted and its type read as a non-`"unknown"` value), the
unmount error is logged, `UNMOUNTED_DISKS` is left unchanged (the disk is
never added), the only `diskutil` call recorded for the iteration is the
failed `unmountDisk` itself — no `verifyVolume`, `repairVolume`, or
`mountDisk` — and the loop continues with the next disk. -/
theorem unmount_failure_skips_disk (env : DiskEnv) (disk fs : String)
    (s : St)
    (hfs : env.fsInfo = some (some fs)) (hnu : fs ≠ "unknown")
    (hio : env.infoOk = true) (hmo : env.mounted = true)
    (huo : env.unmountOk = false) :
    unmountFailMsg disk ∈ (process_disk Mode.normal env disk s).error_log ∧
    (process_disk Mode.normal env disk s).UNMOUNTED_DISKS =
      s.UNMOUNTED_DISKS ∧
    (process_disk Mode.normal env disk s).calls =
      s.calls ++ [Ev.unmountCall disk false] ∧
    (∀ (denv : String → DiskEnv) (rest : List String), denv disk = env →
      run_loop Mode.normal denv (disk :: rest) s =
        run_loop Mode.normal denv rest
          (process_disk Mode.normal env disk s)) := by
  rcases env with ⟨fsi, io, mo, uo, vo, ro, rm⟩
  simp only at hfs hio hmo huo
  subst hfs
  subst hio
  subst hmo
  subst huo
  refine ⟨?_, ?_, ?_, ?_⟩
  · simp [process_disk, get_filesystem, hnu, unmount_disk]
  · simp [process_disk, get_filesystem, hnu, unmount_disk]
  · simp [process_disk, get_filesystem, hnu, unmount_disk]
  · intro denv rest h
    rw [run_loop_cons, h]

/-- Witness for C7 at a concrete disk whose unmount fails. -/
theorem unmount_failure_skips_disk_witness :
    unmountFailMsg "disk5" ∈
      (process_disk Mode.normal envUnmountFail "disk5" initSt).error_log ∧
    (process_disk Mode.normal envUnmountFail "disk5" initSt).UNMOUNTED_DISKS =
      initSt.UNMOUNTED_DISKS ∧
    (process_disk Mode.normal envUnmountFail "disk5" initSt).calls =
      initSt.calls ++ [Ev.unmountCall "disk5" false] ∧
    run_loop Mode.normal (fun _ => envUnmountFail) ["disk5", "disk6"] initSt =
      run_loop Mode.normal (fun _ => envUnmountFail) ["disk6"]
        (process_disk Mode.normal envUnmountFail "disk5" initSt) := by
  have h := unmount_failure_skips_disk envUnmountFail "disk5" "apfs" initSt
    rfl (by decide) rfl rfl rfl
  exact ⟨h.1, h.2.1, h.2.2.1, h.2.2.2 (fun _ => envUnmountFail) ["disk6"] rfl⟩

/-- C8: the summary block appended at run end is a pure function of the
errors-only channel: the recommendation is the manual-review text exactly
when that channel is nonempty, and the all-passed text exactly when it is
empty. -/
theorem summary_pure_of_error_channel (s : St) :
    (append_summary s).summary_blocks = s.summary_blocks ++
      [if s.error_log.isEmpty then allPassedMsg else manualReviewMsg] :=
  append_summary_blocks s

/-- C9: when the enumeration command fails, the run logs the enumeration
error, proceeds with zero disks, reports "no disks found", still appends
the summary (a manual-review one, since an error was logged), and exits
with status 0. -/
theorem enumeration_failure_non_fatal (inp : RunInput)
    (hok : inp.commandsOk = true) (hroot : inp.isRoot = true)
    (henum : inp.enum = none) :
    (main_run inp).1 = 0 ∧
    enumFailMsg ∈ (main_run inp).2.error_log ∧
    (Sev.info, noDisksMsg) ∈ (main_run inp).2.spec_log ∧
    (main_run inp).2.summary_blocks = [manualReviewMsg] := by
  rw [main_run_eq inp hok hroot, henum]
  refine ⟨rfl, ?_, ?_, ?_⟩ <;>
    simp [atexit_exit, cleanup, get_external_disks, append_summary,
      log_info, log_error, enumFailMsg, noDisksMsg, manualReviewMsg,
      allPassedMsg, initSt]

/-- Witness for C9 at a concrete run with failing enumeration. -/
theorem enumeration_failure_non_fatal_witness :
    (main_run inpEnumFail).1 = 0 ∧
    enumFailMsg ∈ (main_run inpEnumFail).2.error_log ∧
    (Sev.info, noDisksMsg) ∈ (main_run inpEnumFail).2.spec_log ∧
    (main_run inpEnumFail).2.summary_blocks = [manualReviewMsg] :=
  enumeration_failure_non_fatal inpEnumFail rfl rfl rfl

theorem is_sys_fail_fst (disk : String) (c : SysCheck) (s : St)
    (hfail : c.listOk = false) : (is_system_disk disk c s).1 = false := by
  simp [is_system_disk, hfail]

theorem gets_fold_mem (sysc : String → SysCheck) :
    ∀ (cands : List String) (acc : List String × St) (disk : String),
      (disk ∈ acc.1 ∨ (disk ∈ cands ∧ (sysc disk).listOk = false)) →
      disk ∈ (cands.foldl (fun (acc : List String × St) d =>
        let p := is_system_disk d (sysc d) acc.2
        (if p.1 then acc.1 else acc.1 ++ [d], p.2)) acc).1
  | [], acc, disk, h => by
      rcases h with h | ⟨h, _⟩
      · exact h
      · exact absurd h (List.not_mem_nil disk)
  | d :: rest, acc, disk, h => by
      rw [List.foldl_cons]
      apply gets_fold_mem sysc rest
      rcases h with h | ⟨hmem, hf⟩
      · left
        by_cases hp : (is_system_disk d (sysc d) acc.2).1
        · simpa [hp] using h
        · simp only [hp, if_false, Bool.false_eq_true]
          exact List.mem_append_left _ h
      · rcases List.mem_cons.mp hmem with rfl | hmem2
        · left
          show disk ∈ if (is_system_disk disk (sysc disk) acc.2).1 = true
            then acc.1 else acc.1 ++ [disk]
          rw [is_sys_fail_fst disk (sysc disk) acc.2 hf]
          simp
        · exact Or.inr ⟨hmem2, hf⟩

/-- C10: when the `diskutil list` call inside the system-disk check fails,
`is_system_disk` logs the error and returns `False`, so the candidate is
treated as non-system and is included in the inventory returned by
`get_external_disks` — the error does not exclude the disk. -/
theorem sys_check_failure_includes_disk (disk : String) (c : SysCheck)
    (s : St) (hfail : c.listOk = false) :
    (is_system_disk disk c s).1 = false ∧
    sysCheckFailMsg disk ∈ (is_system_disk disk c s).2.error_log ∧
    (∀ (cands : List String) (sysc : String → SysCheck) (s0 : St),
      disk ∈ cands → (sysc disk).listOk = false →
      disk ∈ (get_external_disks (some cands) sysc s0).1) := by
  refine ⟨is_sys_fail_fst disk c s hfail, ?_, ?_⟩
  · simp [is_system_disk, hfail]
  · intro cands sysc s0 hmem hf
    exact gets_fold_mem sysc cands ([], s0) disk (Or.inr ⟨hmem, hf⟩)

/-- Witness for C10 at a concrete candidate whose system-disk check
fails. -/
theorem sys_check_failure_includes_disk_witness :
    (is_system_disk "disk7" ⟨false, []⟩ initSt).1 = false ∧
    sysCheckFailMsg "disk7" ∈
      (is_system_disk "disk7" ⟨false, []⟩ initSt).2.error_log ∧
    "disk7" ∈ (get_external_disks (some ["disk7"])
      (fun _ => ⟨false, []⟩) initSt).1 := by
  have h := sys_check_failure_includes_disk "disk7" ⟨false, []⟩ initSt rfl
  exact ⟨h.1, h.2.1,
    h.2.2 ["disk7"] (fun _ => ⟨false, []⟩) initSt (by simp) rfl⟩

end DeepDiskCheck
